import Mathlib

/-!
Verification development for the Legal-ai conversation-context subsystem.

The definitions below are a shallow embedding of the Python sources:
  src/services/legal_service.py  (LegalService: redis-backed history, summary,
                                  profile and counter management)
  src/agents/legal_agent.py      (chat_with_legal_agent, generate_stream_response)
  src/models/json_response.py    (JsonData wire payload)

Redis is modelled as an explicit record of the per-account keys the code
touches.  Redis expiry semantics: a key written with setex and not yet
expired reads back as a string with positive ttl, an expired or absent key
reads back as None with ttl -2.  Every summary/profile key in the source is
written exclusively through setex, so a present key always has positive
ttl; presence of the stored Option value therefore models the conjunction
used by the code (value truthy and ttl positive).  Python truthiness of a
string value (empty string is falsy) is modelled explicitly.

The language model and the message digest are environment parameters
(Env): the code treats both as deterministic black boxes during one
execution.  Each service operation returns its result, the successor
state, and the number of model invocations it performed.
-/

/-- Python: bool(s) for an optional string, i.e. present and non-empty. -/
def truthy : Option String → Bool
  | none => false
  | some s => !(s == "")

/-- Python: x or d, for x an optional string and d a default. -/
def pyOr (o : Option String) (d : String) : String :=
  match o with
  | some v => if v = "" then d else v
  | none => d

/-- Python: str.lower, character by character. -/
def strLower (s : String) : String :=
  String.mk (s.toList.map Char.toLower)

def isPrefixList : List Char → List Char → Bool
  | [], _ => true
  | _ :: _, [] => false
  | a :: as, b :: bs => a == b && isPrefixList as bs

def hasInfixList (needle : List Char) : List Char → Bool
  | [] => needle.isEmpty
  | c :: t => isPrefixList needle (c :: t) || hasInfixList needle t

/-- Python: needle in hay, substring containment. -/
def containsSub (hay needle : String) : Bool :=
  hasInfixList needle.toList hay.toList

/-- Python: "".join of a list of strings. -/
def strJoin : List String → String
  | [] => ""
  | s :: r => s ++ strJoin r

/-- One chat message as stored in redis by LegalService.add_message:
role, content, an ISO timestamp taken from the clock at append time, and
an optional metadata payload (kept opaque). -/
structure Message where
  role : String
  content : String
  timestamp : String
  metadata : Option String
  deriving Repr, DecidableEq

/-- User profile as built by LegalService.get_user_profile: the default
fields, plus the fields merged in from a successful model inference
(kept opaque in extra). -/
structure Profile where
  preferredLanguage : String
  conversationStyle : String
  lastActive : String
  totalConversations : Nat
  extra : Option String
  deriving Repr, DecidableEq

/-- One record of the day-bucketed metadata log written by
LegalService.save_conversation (the opaque tool-call/context payload is
elided; the truncated input and response length are kept). -/
structure MetaRecord where
  timestamp : String
  userInput : String
  agentResponseLength : Nat
  deriving Repr, DecidableEq

/-- The per-account redis keys touched by the code:
chat_history, chat_summary, summary_hash, user_profile,
conv_count (absent key reads as 0 for incr) and the metadata log. -/
structure RState where
  chatHistory : Option (List Message)
  summary : Option String
  summaryHash : Option String
  profile : Option Profile
  convCount : Nat
  metadataLog : List MetaRecord
  deriving Repr, DecidableEq

/-- Deterministic environment of one execution: the md5 digest of the
serialized history, the model call made by generate_summary, the model
call made by get_user_profile (none models a json parse failure of the
model output), and the current clock reading. -/
structure Env where
  hash : List Message → String
  summaryLLM : List Message → String
  profileLLM : List Message → Option String
  now : String

/-- context_config max_history_messages. -/
def maxHistoryMessages : Nat := 10

/-- context_config summary_update_threshold. -/
def summaryUpdateThreshold : Nat := 5

/-- LegalService.get_chat_history: the stored json list, or empty when the
key is absent (the stored serialization of a list is never the empty
string, so presence is truthiness). -/
def get_chat_history (s : RState) : List Message :=
  s.chatHistory.getD []

/-- The slice messages[-max_history_messages:] applied by save_chat_history
when the list is over the bound. -/
def truncateHistory (msgs : List Message) : List Message :=
  if msgs.length > maxHistoryMessages then msgs.drop (msgs.length - maxHistoryMessages)
  else msgs

/-- LegalService.save_chat_history: keep only the newest N messages, then
overwrite the key. -/
def save_chat_history (s : RState) (msgs : List Message) : RState :=
  { s with chatHistory := some (truncateHistory msgs) }

/-- LegalService.add_message: read-modify-write append of one message. -/
def add_message (s : RState) (role content ts : String) (md : Option String) : RState :=
  let messages := get_chat_history s
  save_chat_history s (messages ++ [{ role := role, content := content,
                                      timestamp := ts, metadata := md }])

/-- LegalService.save_chat_messages: append the user turn then the
assistant turn. -/
def save_chat_messages (s : RState) (userMessage assistantMessage ts : String) : RState :=
  add_message (add_message s "user" userMessage ts none) "assistant" assistantMessage ts none

/-- LegalService.clear_chat_history: delete the chat_history key and the
chat_summary key.  The summary_hash key, the profile and the counter are
left untouched. -/
def clear_chat_history (s : RState) : RState :=
  { s with chatHistory := none, summary := none }

/-- LegalService.generate_summary.  Returns the text, the new state, and
the number of model invocations.  Branches, in source order:
cached summary truthy and unexpired, return it; no history, return empty;
stored hash equal to the hash of the current history, return the cached
value or empty; otherwise invoke the model once and refresh cache and
hash. -/
def generate_summary (env : Env) (s : RState) : String × RState × Nat :=
  let cached := s.summary
  if truthy cached then (cached.getD "", s, 0)
  else
    let messages := get_chat_history s
    if messages.isEmpty then ("", s, 0)
    else
      let messagesHash := env.hash messages
      if s.summaryHash = some messagesHash then (pyOr cached "", s, 0)
      else
        let newSummary := env.summaryLLM messages
        (newSummary,
          { s with summary := some newSummary, summaryHash := some messagesHash }, 1)

/-- The default profile dict built by get_user_profile (legal_interests
starts empty and is part of extra when inferred). -/
def defaultProfile (env : Env) : Profile :=
  { preferredLanguage := "zh-CN", conversationStyle := "formal",
    lastActive := env.now, totalConversations := 0, extra := none }

/-- LegalService.get_user_profile: cached profile if stored, else a
default profile, refined by one model inference call when history exists
(parse failures keep the defaults), persisted in both cases. -/
def get_user_profile (env : Env) (s : RState) : Profile × RState × Nat :=
  match s.profile with
  | some p => (p, s, 0)
  | none =>
    let base := defaultProfile env
    let messages := get_chat_history s
    if messages.isEmpty then (base, { s with profile := some base }, 0)
    else
      let prof := match env.profileLLM messages with
        | some extracted => { base with extra := some extracted }
        | none => base
      (prof, { s with profile := some prof }, 1)

/-- LegalService._update_user_profile_stats: bump total_conversations and
refresh last_active on the current profile, then persist it. -/
def update_user_profile_stats (env : Env) (s : RState) : RState × Nat :=
  let gp := get_user_profile env s
  let p := gp.1
  let p2 := { p with totalConversations := p.totalConversations + 1, lastActive := env.now }
  ({ gp.2.1 with profile := some p2 }, gp.2.2)

/-- Context bundle returned by LegalService.get_conversation_context. -/
structure ConvContext where
  history : List Message
  summary : String
  strategy : String
  tokensUsed : Nat
  userProfile : Option Profile
  deriving Repr, DecidableEq

/-- LegalService.get_conversation_context: read the history, always run
generate_summary, then fill the context fields according to the strategy
(full, summary, hybrid, window; anything else keeps the empty defaults),
and finally attach the user profile (the returned dict is non-empty,
hence truthy).  maxTokens is accepted and ignored, as in the source. -/
def get_conversation_context (env : Env) (s : RState) (strategy : String)
    (maxTokens : Nat) : ConvContext × RState × Nat :=
  let _ := maxTokens
  let messages := get_chat_history s
  let gs := generate_summary env s
  let ctx0 : ConvContext :=
    { history := [], summary := "", strategy := strategy, tokensUsed := 0, userProfile := none }
  let ctx1 :=
    if strategy = "full" then { ctx0 with history := messages }
    else if strategy = "summary" then { ctx0 with summary := gs.1 }
    else if strategy = "hybrid" then
      if messages.length > 3 then
        { ctx0 with history := messages.drop (messages.length - 3), summary := gs.1 }
      else { ctx0 with history := messages }
    else if strategy = "window" then
      { ctx0 with history :=
          if messages.length > 5 then messages.drop (messages.length - 5) else messages }
    else ctx0
  let gp := get_user_profile env gs.2.1
  ({ ctx1 with userProfile := some gp.1 }, gp.2.1, gs.2.2 + gp.2.2)

/-- LegalService.save_conversation: save both turn messages, append one
capped metadata record when metadata was passed, then bump the profile
stats. -/
def save_conversation (env : Env) (s : RState) (userInput agentResponse : String)
    (withMetadata : Bool) : RState × Nat :=
  let s1 := save_chat_messages s userInput agentResponse env.now
  let s2 :=
    if withMetadata then
      let record : MetaRecord :=
        { timestamp := env.now, userInput := userInput.take 100,
          agentResponseLength := agentResponse.length }
      let log := s1.metadataLog ++ [record]
      { s1 with metadataLog := if log.length > 100 then log.drop (log.length - 100) else log }
    else s1
  update_user_profile_stats env s2

/-- LegalService.update_conversation_summary: incr the per-account
counter; refresh through generate_summary when forced or when the counter
is a multiple of the threshold (resetting the counter once it reaches
100); otherwise return the cached summary or empty. -/
def update_conversation_summary (env : Env) (s : RState) (force : Bool) :
    String × RState × Nat :=
  let count := s.convCount + 1
  let s0 := { s with convCount := count }
  if force || count % summaryUpdateThreshold == 0 then
    let gs := generate_summary env s0
    let s2 := if count ≥ 100 then { gs.2.1 with convCount := 0 } else gs.2.1
    (gs.1, s2, gs.2.2)
  else (pyOr s0.summary "", s0, 0)

/-- One chunk produced by agent_executor.astream, as dispatched by the
consuming loop in chat_with_legal_agent: an output token, an
intermediate-steps record, or an error record (only logged). -/
inductive AgentChunk
  | output (token : String)
  | intermediateSteps
  | errorChunk (msg : String)
  deriving Repr, DecidableEq

/-- How the agent stream ends: normal completion, asyncio.TimeoutError,
or some other raised exception carrying its message. -/
inductive AgentTerminal
  | completed
  | timeoutError
  | raisedError (msg : String)
  deriving Repr, DecidableEq

/-- One observed behaviour of the external agent invocation: the chunks
it yielded before terminating, and how it terminated. -/
structure AgentRun where
  chunks : List AgentChunk
  terminal : AgentTerminal
  deriving Repr, DecidableEq

/-- How one turn of chat_with_legal_agent ends: the generator finishes
normally after a successful stream, finishes normally after yielding an
apology from an except handler, or itself raises. -/
inductive TurnStatus
  | ok
  | errored
  | raised (msg : String)
  deriving Repr, DecidableEq

/-- Result of one turn: everything the generator yielded (the
user-visible output), the final store state once scheduled background
work has run, the number of model invocations besides the agent call
itself, and how the turn ended. -/
structure TurnResult where
  outputs : List String
  state : RState
  llmCalls : Nat
  status : TurnStatus
  deriving Repr, DecidableEq

/-- The tokens the consuming loop forwards: chunks carrying an output
key. -/
def outputTokens (chunks : List AgentChunk) : List String :=
  chunks.filterMap fun c => match c with
    | .output t => some t
    | _ => none

def timeoutApology : String := "抱歉，思考时间过长，请简化您的问题重试。"

def genericApology : String := "对话失败，请稍后再试"

def busyApology : String := "服务繁忙，请稍后重试"

def newSessionApology : String := "对话历史过长，已开启新会话"

/-- chat_with_legal_agent from src/agents/legal_agent.py, one turn.
The try body assembles the hybrid context, fetches the profile again for
the agent input, and forwards the output tokens of the stream.  On
completion with a non-empty response it schedules save_conversation
(metadata always passed) and update_conversation_summary (force false);
both are modelled as having run in the final state.  On
asyncio.TimeoutError the handler yields the timeout apology.  On any
other exception the handler picks the message by substring tests on the
lowered text; in the context-length branch clear_chat_history is a plain
synchronous call which runs at once, and asyncio.create_task is then
applied to its None return value, which raises TypeError inside the
handler before the yield of the apology is reached, so the turn raises
with the history already cleared. -/
def chat_with_legal_agent (env : Env) (s : RState) (inputText : String)
    (run : AgentRun) : TurnResult :=
  let cc := get_conversation_context env s "hybrid" 1000
  let gp := get_user_profile env cc.2.1
  let s2 := gp.2.1
  let n12 := cc.2.2 + gp.2.2
  let outs := outputTokens run.chunks
  match run.terminal with
  | .completed =>
    if outs.isEmpty then
      { outputs := outs, state := s2, llmCalls := n12, status := .ok }
    else
      let sc := save_conversation env s2 inputText (strJoin outs) true
      let us := update_conversation_summary env sc.1 false
      { outputs := outs, state := us.2.1, llmCalls := n12 + sc.2 + us.2.2, status := .ok }
  | .timeoutError =>
    { outputs := outs ++ [timeoutApology], state := s2, llmCalls := n12,
      status := .errored }
  | .raisedError msg =>
    let lowered := strLower msg
    if containsSub lowered "rate limit" then
      { outputs := outs ++ [busyApology], state := s2, llmCalls := n12,
        status := .errored }
    else if containsSub lowered "context length" then
      { outputs := outs, state := clear_chat_history s2, llmCalls := n12,
        status := .raised "TypeError: a coroutine was expected" }
    else
      { outputs := outs ++ [genericApology], state := s2, llmCalls := n12,
        status := .errored }

/-- Json escaping of a character as produced when the payload is dumped
to the wire. -/
def jsonEscapeChar (c : Char) : String :=
  if c = '\\' then "\\\\"
  else if c = '\"' then "\\\""
  else if c = '\n' then "\\n"
  else if c = '\r' then "\\r"
  else if c = '\t' then "\\t"
  else String.mk [c]

def jsonEscape (s : String) : String :=
  strJoin (s.toList.map jsonEscapeChar)

/-- One wire frame for a partial chunk: data: followed by the dump of
JsonData.stream_data(chunk), which is the payload with fields code 0,
data, msg empty and type stream in declaration order, then a blank
line. -/
def streamFrame (chunk : String) : String :=
  "data: \x7b\"code\":0,\"data\":\"" ++ jsonEscape chunk ++
    "\",\"msg\":\"\",\"type\":\"stream\"\x7d\n\n"

/-- The end-of-stream sentinel frame. -/
def doneFrame : String := "data: [DONE]\n\n"

/-- The punctuation marks that flush the current chunk in
generate_stream_response. -/
def streamPunctuation : List String := ["。", "？", "！", "；", "，"]

/-- The coalescing loop of generate_stream_response: current_chunk
accumulates tokens; a frame is emitted when the incoming token is itself
one of the punctuation marks or the accumulated chunk has length at
least 10; a non-empty trailing chunk is flushed at stream end, and the
sentinel is always the last frame. -/
def genStreamAux (currentChunk : String) : List String → List String
  | [] => (if currentChunk = "" then [] else [streamFrame currentChunk]) ++ [doneFrame]
  | token :: rest =>
    let c := currentChunk ++ token
    if streamPunctuation.contains token || c.length ≥ 10 then
      streamFrame c :: genStreamAux "" rest
    else genStreamAux c rest

/-- generate_stream_response from src/agents/legal_agent.py, as a
function of the token sequence yielded by chat_with_legal_agent. -/
def generate_stream_response (tokens : List String) : List String :=
  genStreamAux "" tokens

/-- The chunk boundaries of generate_stream_response, without the
framing: same emission rule, listing the emitted chunk texts. -/
def streamChunksAux (acc : String) : List String → List String
  | [] => if acc = "" then [] else [acc]
  | token :: rest =>
    let c := acc ++ token
    if streamPunctuation.contains token || c.length ≥ 10 then
      c :: streamChunksAux "" rest
    else streamChunksAux c rest

/-- True when the last character of the chunk is one of the designated
punctuation marks. -/
def endsInPunct (c : String) : Bool :=
  match c.toList.getLast? with
  | some ch => ch ∈ ['。', '？', '！', '；', '，']
  | none => false

/-- Modelled from the spec: the emission rule as the claim states it,
namely that a frame is emitted when the accumulated chunk ends in a
designated punctuation mark or reaches the minimum size threshold of 10,
with the same framing, flush and sentinel.  Written only to be compared
with generate_stream_response, which is translated from the source. -/
def claimStreamAux (currentChunk : String) : List String → List String
  | [] => (if currentChunk = "" then [] else [streamFrame currentChunk]) ++ [doneFrame]
  | token :: rest =>
    let c := currentChunk ++ token
    if endsInPunct c || c.length ≥ 10 then
      streamFrame c :: claimStreamAux "" rest
    else claimStreamAux c rest

/-- Modelled from the spec: the wire output under the emission rule as
the claim states it. -/
def claimStreamResponse (tokens : List String) : List String :=
  claimStreamAux "" tokens

/-- A concrete deterministic environment used by the closed witnesses:
the digest is content concatenation, the summary model always answers
SUM, the profile inference parses, the clock is fixed. -/
def env0 : Env :=
  { hash := fun msgs => "H:" ++ strJoin (msgs.map (fun m => m.content ++ ";")),
    summaryLLM := fun _ => "SUM",
    profileLLM := fun _ => some "inferred",
    now := "2026-01-01T00:00:00" }

def msgA : Message :=
  { role := "user", content := "合同问题", timestamp := "t1", metadata := none }

def profile0 : Profile :=
  { preferredLanguage := "zh-CN", conversationStyle := "formal",
    lastActive := "t0", totalConversations := 2, extra := none }

/-- Account state with one stored message, a fresh cached summary and a
cached profile: context assembly makes no model call from here. -/
def stateC1 : RState :=
  { chatHistory := some [msgA], summary := some "CACHED", summaryHash := some "HH",
    profile := some profile0, convCount := 0, metadataLog := [] }

/-- A context-window-overflow failure of the agent invocation before any
token was produced. -/
def runC1 : AgentRun :=
  { chunks := [], terminal := .raisedError "Error: maximum context length exceeded" }

/-- A timeout that strikes after one token was already streamed. -/
def runC8mid : AgentRun :=
  { chunks := [.output "你好"], terminal := .timeoutError }

/-- A stalled model call: timeout before any token. -/
def runC8stall : AgentRun :=
  { chunks := [], terminal := .timeoutError }

/-- Cached summary present and unexpired while the stored content hash
does not match the hash of the current history. -/
def stateC2 : RState :=
  { chatHistory := some [msgA], summary := some "OLD", summaryHash := some "STALE",
    profile := none, convCount := 0, metadataLog := [] }

/-- Counter at 9 with a fresh cached summary: the next maintenance call
is turn 10, a multiple of the threshold. -/
def stateC3 : RState :=
  { chatHistory := some [msgA], summary := some "S5", summaryHash := some "HH",
    profile := none, convCount := 9, metadataLog := [] }

/-- Counter at 0 with a cached summary: the next maintenance call is
turn 1, an intervening turn. -/
def stateC3w : RState :=
  { chatHistory := some [msgA], summary := some "S", summaryHash := some "HH",
    profile := none, convCount := 0, metadataLog := [] }

/-- The empty account state: no keys stored. -/
def stateEmpty : RState :=
  { chatHistory := none, summary := none, summaryHash := none,
    profile := none, convCount := 0, metadataLog := [] }

/-- C9 execution, step 1: two messages appended to a fresh account. -/
def c9Stored : RState :=
  add_message (add_message stateEmpty "user" "问" "t1" none) "assistant" "答" "t2" none

/-- C9 execution, step 2: a summary generated once (writes cache and
hash). -/
def c9Summarized : RState := (generate_summary env0 c9Stored).2.1

/-- C9 execution, step 3: the account cleared. -/
def c9Cleared : RState := clear_chat_history c9Summarized

/-- C9 execution, step 4: the same two messages appended again, with the
same timestamps, so the serialized history is byte-identical to the
pre-clear history. -/
def c9Replayed : RState :=
  add_message (add_message c9Cleared "user" "问" "t1" none) "assistant" "答" "t2" none

/-- Non-empty history, no cached summary, no stored hash, cached
profile: assembling context from here forces a summary model call. -/
def stateC10 : RState :=
  { chatHistory := some [msgA], summary := none, summaryHash := none,
    profile := some profile0, convCount := 0, metadataLog := [] }

theorem get_chat_history_add (s : RState) (role content ts : String) (md : Option String) :
    get_chat_history (add_message s role content ts md) =
      truncateHistory (get_chat_history s ++
        [{ role := role, content := content, timestamp := ts, metadata := md }]) := rfl

theorem truncateHistory_length_le (l : List Message) :
    (truncateHistory l).length ≤ maxHistoryMessages := by
  unfold truncateHistory
  split
  · simp only [List.length_drop]
    omega
  · omega

theorem truncateHistory_suffix (l : List Message) :
    List.IsSuffix (truncateHistory l) l := by
  unfold truncateHistory
  split
  · exact List.drop_suffix _ _
  · exact List.suffix_refl _

/-- Claim C5: after any append (add_message) from any store state, the
history read back is at most max_history_messages (10) long, and it is a
suffix of the old history with the new message appended: store-side
truncation drops only the oldest entries and keeps insertion order. -/
theorem c5_history_bound (s : RState) (role content ts : String) (md : Option String) :
    (get_chat_history (add_message s role content ts md)).length ≤ maxHistoryMessages ∧
    List.IsSuffix (get_chat_history (add_message s role content ts md))
      (get_chat_history s ++
        [{ role := role, content := content, timestamp := ts, metadata := md }]) := by
  rw [get_chat_history_add]
  exact ⟨truncateHistory_length_le _, truncateHistory_suffix _⟩

theorem get_conversation_context_hybrid (env : Env) (s : RState) (mt : Nat) :
    get_conversation_context env s "hybrid" mt =
      ({ history :=
           if (get_chat_history s).length > 3 then
             (get_chat_history s).drop ((get_chat_history s).length - 3)
           else get_chat_history s,
         summary := if (get_chat_history s).length > 3 then (generate_summary env s).1 else "",
         strategy := "hybrid", tokensUsed := 0,
         userProfile := some (get_user_profile env (generate_summary env s).2.1).1 },
       (get_user_profile env (generate_summary env s).2.1).2.1,
       (generate_summary env s).2.2 + (get_user_profile env (generate_summary env s).2.1).2.2) := by
  unfold get_conversation_context
  by_cases hl : (get_chat_history s).length > 3 <;>
    simp [hl, if_neg (show ¬("hybrid" : String) = "full" by decide),
          if_neg (show ¬("hybrid" : String) = "summary" by decide)]

/-- Claim C4: context assembly with the hybrid strategy returns the last
3 messages together with the generated summary when the stored history is
longer than 3, and the full history with an empty summary otherwise. -/
theorem c4_hybrid_strategy (env : Env) (s : RState) (mt : Nat) :
    ((get_conversation_context env s "hybrid" mt).1).history =
      (if (get_chat_history s).length > 3 then
        (get_chat_history s).drop ((get_chat_history s).length - 3)
      else get_chat_history s) ∧
    ((get_conversation_context env s "hybrid" mt).1).summary =
      (if (get_chat_history s).length > 3 then (generate_summary env s).1 else "") := by
  rw [get_conversation_context_hybrid]
  exact ⟨rfl, rfl⟩

theorem generate_summary_hit (env : Env) (s : RState) (h : truthy s.summary = true) :
    generate_summary env s = (s.summary.getD "", s, 0) := by
  simp [generate_summary, h]

theorem generate_summary_noHistory (env : Env) (s : RState) (h : truthy s.summary = false)
    (h2 : get_chat_history s = []) :
    generate_summary env s = ("", s, 0) := by
  simp [generate_summary, h, h2]

theorem generate_summary_hashHit (env : Env) (s : RState) (h : truthy s.summary = false)
    (h2 : get_chat_history s ≠ []) (h3 : s.summaryHash = some (env.hash (get_chat_history s))) :
    generate_summary env s = (pyOr s.summary "", s, 0) := by
  simp [generate_summary, h, h2, h3]

theorem generate_summary_regen (env : Env) (s : RState) (h : truthy s.summary = false)
    (h2 : get_chat_history s ≠ []) (h3 : s.summaryHash ≠ some (env.hash (get_chat_history s))) :
    generate_summary env s =
      (env.summaryLLM (get_chat_history s),
       { s with
         summary := some (env.summaryLLM (get_chat_history s)),
         summaryHash := some (env.hash (get_chat_history s)) }, 1) := by
  simp [generate_summary, h, h2, h3]

/-- Claim C6: calling generate_summary twice with no intervening append
returns the identical text both times, the second call performs no model
invocation and leaves the state unchanged (a cache hit), and the two
calls together perform at most one model invocation. -/
theorem c6_summary_idempotent (env : Env) (s : RState) :
    (generate_summary env ((generate_summary env s).2.1)).1 = (generate_summary env s).1 ∧
    (generate_summary env ((generate_summary env s).2.1)).2.2 = 0 ∧
    (generate_summary env s).2.2 + (generate_summary env ((generate_summary env s).2.1)).2.2 ≤ 1 ∧
    (generate_summary env ((generate_summary env s).2.1)).2.1 = (generate_summary env s).2.1 := by
  by_cases h1 : truthy s.summary = true
  · simp [generate_summary_hit env s h1]
  · have h1f : truthy s.summary = false := by simpa using h1
    by_cases h2 : get_chat_history s = []
    · simp [generate_summary_noHistory env s h1f h2]
    · by_cases h3 : s.summaryHash = some (env.hash (get_chat_history s))
      · simp [generate_summary_hashHit env s h1f h2 h3]
      · rw [generate_summary_regen env s h1f h2 h3]
        by_cases h4 : env.summaryLLM (get_chat_history s) = ""
        · rw [generate_summary_hashHit env _ (by simp [truthy, h4])
            (by simpa [get_chat_history] using h2) (by simp [get_chat_history])]
          simp [pyOr, h4]
        · rw [generate_summary_hit env _ (by simp [truthy, h4])]
          simp

/-- Claim C2 (amended): generate_summary returns the cached summary text
with no model invocation and no state change whenever the cached summary
is present, non-empty and unexpired, regardless of whether the stored
content hash matches the hash of the current history.  The hash
comparison only governs the branch taken when no such cached summary
exists. -/
theorem c2_cache_hit_ignores_hash (env : Env) (s : RState) (h : truthy s.summary = true) :
    (generate_summary env s).1 = s.summary.getD "" ∧
    (generate_summary env s).2.2 = 0 ∧
    (generate_summary env s).2.1 = s := by
  rw [generate_summary_hit env s h]
  exact ⟨rfl, rfl, rfl⟩

/-- Witness for C2 at stateC2, where the cached summary is present while
the stored hash is stale. -/
theorem c2_cache_hit_ignores_hash_witness :
    truthy stateC2.summary = true ∧
    ((generate_summary env0 stateC2).1 = stateC2.summary.getD "" ∧
     (generate_summary env0 stateC2).2.2 = 0 ∧
     (generate_summary env0 stateC2).2.1 = stateC2) :=
  ⟨by decide, c2_cache_hit_ignores_hash env0 stateC2 (by decide)⟩

/-- Claim C2 counterexample: at stateC2 the cached summary OLD is
present and unexpired, the stored content hash STALE differs from the
hash of the current history, and generate_summary still returns OLD as
a cache hit with zero model invocations — so the cached text is
returned although the history has changed since it was cached, refuting
the claim that it is returned only when the hashes agree. -/
theorem c2_counterexample :
    (generate_summary env0 stateC2).1 = "OLD" ∧
    (generate_summary env0 stateC2).2.2 = 0 ∧
    stateC2.summaryHash ≠ some (env0.hash (get_chat_history stateC2)) := by
  refine ⟨?_, ?_, ?_⟩ <;> decide

/-- Claim C3 (amended): under per-turn summary maintenance with
threshold 5 and no forcing, on a turn whose incremented counter is not a
multiple of 5 nothing is regenerated: no model invocation occurs, the
previously cached summary (or the empty string) is returned, and only
the counter changes.  Contrapositively, absent forcing a model
invocation can occur only on multiple-of-5 turns — and even there only
when the summary cache is invalid. -/
theorem c3_cadence (env : Env) (s : RState)
    (h : (s.convCount + 1) % summaryUpdateThreshold ≠ 0) :
    update_conversation_summary env s false =
      (pyOr s.summary "", { s with convCount := s.convCount + 1 }, 0) := by
  unfold update_conversation_summary
  simp [h]

/-- Witness for C3 at stateC3w: turn counter 1 is an intervening turn. -/
theorem c3_cadence_witness :
    (stateC3w.convCount + 1) % summaryUpdateThreshold ≠ 0 ∧
    update_conversation_summary env0 stateC3w false =
      (pyOr stateC3w.summary "", { stateC3w with convCount := stateC3w.convCount + 1 }, 0) :=
  ⟨by decide, c3_cadence env0 stateC3w (by decide)⟩

/-- Claim C3 counterexample: at stateC3 the maintenance call is turn 10,
a multiple of the threshold 5, yet zero model invocations occur and the
cached text S5 is returned, because the cached summary is still fresh:
summary regeneration (a model invocation producing a new summary) is
not triggered on that multiple-of-5 turn, refuting the claimed exact
cadence. -/
theorem c3_counterexample :
    (stateC3.convCount + 1) % summaryUpdateThreshold = 0 ∧
    (update_conversation_summary env0 stateC3 false).2.2 = 0 ∧
    (update_conversation_summary env0 stateC3 false).1 = "S5" := by
  refine ⟨?_, ?_, ?_⟩ <;> decide

theorem generate_summary_chatHistory (env : Env) (s : RState) :
    ((generate_summary env s).2.1).chatHistory = s.chatHistory := by
  by_cases h1 : truthy s.summary = true
  · rw [generate_summary_hit env s h1]
  · have h1f : truthy s.summary = false := by simpa using h1
    by_cases h2 : get_chat_history s = []
    · rw [generate_summary_noHistory env s h1f h2]
    · by_cases h3 : s.summaryHash = some (env.hash (get_chat_history s))
      · rw [generate_summary_hashHit env s h1f h2 h3]
      · rw [generate_summary_regen env s h1f h2 h3]

theorem get_user_profile_preserves (env : Env) (s : RState) :
    ((get_user_profile env s).2.1).summary = s.summary ∧
    ((get_user_profile env s).2.1).summaryHash = s.summaryHash ∧
    ((get_user_profile env s).2.1).chatHistory = s.chatHistory := by
  cases hp : s.profile with
  | some p => simp [get_user_profile, hp]
  | none =>
    by_cases h2 : get_chat_history s = []
    · simp [get_user_profile, hp, h2]
    · cases hq : env.profileLLM (get_chat_history s) <;>
        simp [get_user_profile, hp, h2, hq]

theorem get_conversation_context_chatHistory (env : Env) (s : RState)
    (strat : String) (mt : Nat) :
    ((get_conversation_context env s strat mt).2.1).chatHistory = s.chatHistory := by
  have h2 := (get_user_profile_preserves env (generate_summary env s).2.1).2.2
  calc ((get_conversation_context env s strat mt).2.1).chatHistory
      = ((get_user_profile env (generate_summary env s).2.1).2.1).chatHistory := rfl
    _ = ((generate_summary env s).2.1).chatHistory := h2
    _ = s.chatHistory := generate_summary_chatHistory env s

/-- Claim C9: clear_chat_history deletes the history and summary keys
but leaves the summary_hash key, and in the concrete replay execution
(two messages stored, summary generated once with one model call, the
account cleared, the same messages appended again with identical
timestamps) the second generate_summary finds the stale stored hash
equal to the current history hash with no cached summary, returns the
empty string with zero model invocations, and leaves the account with
no stored summary. -/
theorem c9_stale_hash_after_clear :
    (∀ s : RState, (clear_chat_history s).chatHistory = none ∧
      (clear_chat_history s).summary = none ∧
      (clear_chat_history s).summaryHash = s.summaryHash ∧
      (clear_chat_history s).profile = s.profile) ∧
    get_chat_history c9Replayed = get_chat_history c9Stored ∧
    (generate_summary env0 c9Stored).2.2 = 1 ∧
    c9Replayed.summaryHash = some (env0.hash (get_chat_history c9Replayed)) ∧
    c9Replayed.summary = none ∧
    (generate_summary env0 c9Replayed).1 = "" ∧
    (generate_summary env0 c9Replayed).2.2 = 0 ∧
    ((generate_summary env0 c9Replayed).2.1).summary = none := by
  refine ⟨fun s => ⟨rfl, rfl, rfl, rfl⟩, ?_, ?_, ?_, ?_, ?_, ?_, ?_⟩ <;> decide

/-- Claim C10: context assembly invokes generate_summary before
branching for every strategy argument — the summary and hash keys of
the post state are exactly those produced by generate_summary on the
pre state and the model-invocation count includes its — and concretely,
assembling from stateC10 with the full or window strategy issues one
model call and writes both the summary cache and the content-hash key
as a side effect, although the returned context carries an empty
summary field. -/
theorem c10_context_side_effects :
    (∀ (env : Env) (s : RState) (strategy : String) (mt : Nat),
      ((get_conversation_context env s strategy mt).2.1).summary =
        ((generate_summary env s).2.1).summary ∧
      ((get_conversation_context env s strategy mt).2.1).summaryHash =
        ((generate_summary env s).2.1).summaryHash ∧
      (generate_summary env s).2.2 ≤ (get_conversation_context env s strategy mt).2.2) ∧
    ((get_conversation_context env0 stateC10 "full" 1000).2.2 = 1 ∧
     ((get_conversation_context env0 stateC10 "full" 1000).2.1).summary = some "SUM" ∧
     ((get_conversation_context env0 stateC10 "full" 1000).2.1).summaryHash =
       some (env0.hash (get_chat_history stateC10)) ∧
     ((get_conversation_context env0 stateC10 "full" 1000).1).summary = "") ∧
    ((get_conversation_context env0 stateC10 "window" 1000).2.2 = 1 ∧
     ((get_conversation_context env0 stateC10 "window" 1000).1).summary = "") := by
  refine ⟨fun env s strategy mt => ?_, ⟨?_, ?_, ?_, ?_⟩, ⟨?_, ?_⟩⟩
  · have hp := get_user_profile_preserves env (generate_summary env s).2.1
    exact ⟨hp.1, hp.2.1, Nat.le_add_right _ _⟩
  all_goals decide

/-- Claim C1 (code-bug evaluation at the failing input): on a turn whose
agent invocation raises an error containing the substring context
length, the stored history is cleared synchronously — a subsequent read
returns the empty sequence — and the profile is untouched, but the
user-visible output is NOT the designated new-session apology: it is
empty, because asyncio.create_task is applied to the None returned by
the synchronous clear_chat_history and raises TypeError inside the
except handler before the yield of the apology is reached, so the turn
raises instead of emitting the message. -/
theorem c1_context_overflow_bug :
    get_chat_history (chat_with_legal_agent env0 stateC1 "问题" runC1).state = [] ∧
    (chat_with_legal_agent env0 stateC1 "问题" runC1).state.profile = stateC1.profile ∧
    (chat_with_legal_agent env0 stateC1 "问题" runC1).outputs = [] ∧
    (chat_with_legal_agent env0 stateC1 "问题" runC1).outputs ≠ [newSessionApology] ∧
    (chat_with_legal_agent env0 stateC1 "问题" runC1).status =
      TurnStatus.raised "TypeError: a coroutine was expected" := by
  refine ⟨?_, ?_, ?_, ?_, ?_⟩ <;> decide

/-- Claim C8 (amended): on every turn whose agent invocation ends in
asyncio.TimeoutError, the designated timeout apology is appended as the
final user-visible output after whatever tokens were already streamed
(so the output is exactly the single apology when the timeout precedes
any token), the turn ends in the error state, and the stored history
key is unchanged: no history entries are appended for that turn. -/
theorem c8_timeout (env : Env) (s : RState) (inputText : String) (run : AgentRun)
    (h : run.terminal = AgentTerminal.timeoutError) :
    (chat_with_legal_agent env s inputText run).outputs =
      outputTokens run.chunks ++ [timeoutApology] ∧
    (chat_with_legal_agent env s inputText run).status = TurnStatus.errored ∧
    (chat_with_legal_agent env s inputText run).state.chatHistory = s.chatHistory := by
  have hcc := get_conversation_context_chatHistory env s "hybrid" 1000
  have hgp :=
    (get_user_profile_preserves env (get_conversation_context env s "hybrid" 1000).2.1).2.2
  unfold chat_with_legal_agent
  rw [h]
  exact ⟨rfl, rfl, hgp.trans hcc⟩

/-- Witness for C8: a stalled model call that produced no token; the
output of the turn is exactly the single timeout apology. -/
theorem c8_timeout_witness :
    (chat_with_legal_agent env0 stateC1 "q" runC8stall).outputs =
      outputTokens runC8stall.chunks ++ [timeoutApology] ∧
    (chat_with_legal_agent env0 stateC1 "q" runC8stall).status = TurnStatus.errored ∧
    (chat_with_legal_agent env0 stateC1 "q" runC8stall).state.chatHistory =
      stateC1.chatHistory :=
  c8_timeout env0 stateC1 "q" runC8stall rfl

/-- Claim C8 counterexample: when the timeout strikes after one token
was already streamed, the user-visible output of the turn is that token
followed by the apology — not exactly the single designated apology
string, refuting the claim as stated. -/
theorem c8_counterexample :
    (chat_with_legal_agent env0 stateC1 "q" runC8mid).outputs ≠ [timeoutApology] ∧
    (chat_with_legal_agent env0 stateC1 "q" runC8mid).outputs =
      ["你好", timeoutApology] := by
  exact ⟨by decide, by decide⟩

theorem genStreamAux_chunks (acc : String) (ts : List String) :
    genStreamAux acc ts = (streamChunksAux acc ts).map streamFrame ++ [doneFrame] := by
  induction ts generalizing acc with
  | nil => by_cases h : acc = "" <;> simp [genStreamAux, streamChunksAux, h]
  | cons t rest ih =>
    simp only [genStreamAux, streamChunksAux]
    by_cases h : (streamPunctuation.contains t || decide ((acc ++ t).length ≥ 10)) = true
    · rw [if_pos h, if_pos h]
      simp [ih]
    · rw [if_neg h, if_neg h]
      exact ih _

theorem strJoin_streamChunksAux (acc : String) (ts : List String) :
    strJoin (streamChunksAux acc ts) = acc ++ strJoin ts := by
  induction ts generalizing acc with
  | nil => by_cases h : acc = "" <;> simp [streamChunksAux, strJoin, h]
  | cons t rest ih =>
    simp only [streamChunksAux]
    by_cases h : (streamPunctuation.contains t || decide ((acc ++ t).length ≥ 10)) = true
    · rw [if_pos h]
      simp [strJoin, ih, String.append_assoc, String.empty_append]
    · rw [if_neg h, ih, String.append_assoc]
      rfl

/-- Claim C7 (amended): the streamed wire output equals the frames of
the chunks produced by the coalescing rule of the source — a chunk is
emitted when the incoming token is itself one of the punctuation marks
。？！；，or the accumulated chunk has reached length 10, and a
non-empty trailing chunk is flushed at stream end — where each chunk
frame is data: followed by the json payload with fields code 0, data,
msg empty and type stream; the final frame is the literal DONE
sentinel; and the concatenation of all emitted chunk data equals the
concatenation of the whole token sequence. -/
theorem c7_stream_frames (tokens : List String) :
    generate_stream_response tokens =
      (streamChunksAux "" tokens).map streamFrame ++ [doneFrame] ∧
    strJoin (streamChunksAux "" tokens) = strJoin tokens := by
  refine ⟨genStreamAux_chunks "" tokens, ?_⟩
  have h := strJoin_streamChunksAux "" tokens
  simpa using h

/-- Claim C7 counterexample: on the token sequence consisting of a
three-character token ending in 。 followed by x, the source emits one
single chunk at stream end, while the emission rule as the claim states
it — emit when the accumulated chunk ends in a designated punctuation
mark — would emit the first chunk immediately: the wire outputs differ,
refuting the claimed emission condition. -/
theorem c7_counterexample :
    generate_stream_response ["ab。", "x"] ≠ claimStreamResponse ["ab。", "x"] ∧
    generate_stream_response ["ab。", "x"] = [streamFrame "ab。x", doneFrame] ∧
    claimStreamResponse ["ab。", "x"] = [streamFrame "ab。", streamFrame "x", doneFrame] := by
  refine ⟨?_, ?_, ?_⟩ <;> decide
